import Mathlib

/-!
Shallow embedding of the omnibot repository (a LangChain MCP chat client,
an HTTP front door, and three MCP tool servers) together with proofs about
the behaviour its specification describes.

Files embedded:
  * `src/main/app/client/client.py` — `MCPAgentWrapper` (initialize, invoke)
  * `src/main/main.py`              — the `/chat` endpoint
  * `src/main/app/servers/server.py`  — `send_email`, `schedule_meeting`
  * `src/main/app/servers/server2.py` — `disease_diagnoser`
  * `src/main/app/servers/server3.py` — `get_coordinates`, `get_travel_info`

External effects (the remote model, SMTP, HTTP services, geocoding) are
modelled as explicit oracles passed in as arguments; a Python exception
escaping a function is modelled as `Except.error`, a normal return as
`Except.ok`.
-/

namespace Omnibot

/-- Python's emptiness test `s.strip() == ""`: the string is blank
(empty or whitespace only).  Stripping leading and trailing whitespace
leaves the empty string exactly when every character is whitespace. -/
def isBlank (s : String) : Bool := s.data.all Char.isWhitespace

/-- A LangChain message as the client distinguishes them:
`HumanMessage`, `AIMessage`, or any other kind (tool calls, tool results)
which the client treats uniformly as "not an AIMessage". -/
inductive Msg where
  | human (content : String)
  | ai (content : String)
  | tool (content : String)
deriving DecidableEq, Repr

/-- The `content` attribute of a message. -/
def Msg.content : Msg → String
  | .human c => c
  | .ai c => c
  | .tool c => c

/-- `isinstance(msg, AIMessage)`. -/
def Msg.isAI : Msg → Bool
  | .ai _ => true
  | _ => false

/-- The filter used in `invoke`:
`isinstance(msg, AIMessage) and msg.content.strip()`. -/
def nonBlankAI (m : Msg) : Bool := m.isAI && !isBlank m.content

/-- The value returned by `agent.ainvoke`: a mapping whose `"messages"`
entry is the complete message list produced by the react loop
(the input history followed by intermediate tool-call/observation
messages and assistant messages). -/
structure AgentResponse where
  messages : List Msg
deriving DecidableEq, Repr

/-- `ai_messages[-1]` of the filtered list (none when the filter is empty). -/
def lastNonBlankAI (msgs : List Msg) : Option Msg :=
  (msgs.filter nonBlankAI).getLast?

/-- The (zero- or one-element) list of messages `invoke` appends to the
history after the call: `if ai_messages: history.append(ai_messages[-1])`. -/
def aiTail (r : AgentResponse) : List Msg :=
  (lastNonBlankAI r.messages).toList

/-- The react agent produced by `create_react_agent`, viewed through the
only operation the client uses: `ainvoke` on a message list.  A raised
exception (e.g. a remote-call failure after all retries) is `.error`. -/
abbrev ReactAgent := List Msg → Except String AgentResponse

/-- The mutable state of `MCPAgentWrapper`: `self.agent` (None until
`initialize` succeeds) and `self.chat_history`. -/
structure WrapperState where
  agent : Option ReactAgent
  chat_history : List Msg

/-- `MCPAgentWrapper.invoke(user_input)` (client.py lines 125-147).
Returns the state after the call and either the raised exception or the
pair (message list passed to `agent.ainvoke`, the returned `response`).
The first component of the `.ok` payload is instrumentation recording
what was sent to the remote model; the Python function's return value is
the second component — the full `response`, not a string. -/
def invoke (st : WrapperState) (user_input : String) :
    WrapperState × Except String (List Msg × AgentResponse) :=
  match st.agent with
  | none => (st, .error "Agent not initialized. Call initialize() first.")
  | some f =>
    let sent := st.chat_history ++ [Msg.human user_input]
    match f sent with
    | .error e => ({ st with chat_history := sent }, .error e)
    | .ok r => ({ st with chat_history := sent ++ aiTail r }, .ok (sent, r))

/-- An MCP tool as loaded by `load_mcp_tools` (name, description, schema);
only identity matters to the loading logic. -/
structure ToolDef where
  name : String
  description : String
deriving DecidableEq, Repr

/-- One configured MCP server entry together with the outcome of
attempting to connect to it and load its tools: either the declared tool
list in declaration order, or the exception raised anywhere inside the
per-server `try` block (spawn, handshake, or tool loading). -/
structure ProviderEntry where
  name : String
  outcome : Except String (List ToolDef)

/-- The tools a provider contributes: its declared list on success,
nothing when its connection attempt raised (the `except` clause logs and
continues). -/
def providerTools (s : ProviderEntry) : List ToolDef :=
  match s.outcome with
  | .ok ts => ts
  | .error _ => []

/-- The `tools` accumulator of `initialize`'s loop (client.py lines
99-117): starts empty, `tools.extend(server_tools)` on success, unchanged
when the `except` branch fires. -/
def loadAllTools (servers : List ProviderEntry) : List ToolDef :=
  servers.foldl
    (fun acc s =>
      match s.outcome with
      | .ok ts => acc ++ ts
      | .error _ => acc)
    []

/-- `MCPAgentWrapper.initialize` (client.py lines 92-123), given the
parsed configuration's `mcpServers` mapping in iteration order.  Raises
(`.error`) when the mapping is empty or when no tools were loaded from
any server; otherwise constructs the agent over the aggregate tool list
(`create_react_agent(llm, tools)`), which we represent by that frozen
list. -/
def initializeAgent (servers : List ProviderEntry) : Except String (List ToolDef) :=
  if servers.isEmpty then
    .error "No MCP servers found in the configuration."
  else
    let tools := loadAllTools servers
    if tools.isEmpty then
      .error "No tools loaded from any server."
    else
      .ok tools

/-- `Except.ok`-ness as a Bool (did the call return normally?). -/
def exceptOk {ε α : Type} : Except ε α → Bool
  | .ok _ => true
  | .error _ => false

/-! ## The HTTP front door (`main.py`) -/

/-- The instruction text prepended by the `/chat` handler (main.py line 34). -/
def promptPreamble : String :=
  "You are omnibot a personal assistant built by waleed abbas. Now cater this query: "

/-- `data.get("message", "")`: the request body's `"message"` field, or
the empty string when the key is absent. -/
def extractMessage (body : Option String) : String := Option.getD body ""

/-- The text the `/chat` handler passes to `mcp_wrapper.invoke`
(main.py lines 33-34). -/
def chatText (body : Option String) : String :=
  promptPreamble ++ extractMessage body

/-- The `/chat` handler's call into the wrapper (main.py line 36); the
response-formatting code after it does not touch the wrapper state. -/
def chatEndpoint (st : WrapperState) (body : Option String) :
    WrapperState × Except String (List Msg × AgentResponse) :=
  invoke st (chatText body)

/-! ## Python datetimes as `schedule_meeting` manipulates them
(`server.py` lines 150-163) -/

/-- A Python `datetime` reduced to what the adapter's logic inspects:
the wall-clock reading (in minutes, on some fixed linear scale) and the
attached `tzinfo`'s UTC offset in minutes (`none` = naive datetime, i.e.
`tzinfo is None or tzinfo.utcoffset(dt) is None`). -/
structure PyDateTime where
  wall : Int
  offset : Option Int
deriving DecidableEq, Repr

/-- The UTC offset, in minutes, carried by the unlocalized
`pytz.timezone("Asia/Karachi")` object: pytz's base `tzinfo` holds the
zone's first (local-mean-time) offset, +4:28, not the modern +5:00. -/
def karachiLMT : Int := 268

/-- Asia/Karachi's UTC offset rule as a function of the UTC instant.
The zone has been fixed at +5:00 (300 minutes) with no daylight saving
throughout the era the adapter schedules meetings in. -/
def karachiZone : Int → Int := fun _ => 300

/-- `pytz.UTC`'s offset rule. -/
def utcZone : Int → Int := fun _ => 0

/-- `dt.replace(tzinfo=tz)`: keep the wall-clock fields, attach the
given offset. -/
def replaceTzinfo (dt : PyDateTime) (off : Int) : PyDateTime :=
  { dt with offset := some off }

/-- `dt.astimezone(tz)` for an aware `dt`: the instant is preserved and
the wall clock re-expressed under the target zone's offset at that
instant.  (Python applies system-local assumptions to naive datetimes;
the code path we model never does that, so naive input is `none`.) -/
def astimezone (dt : PyDateTime) (zone : Int → Int) : Option PyDateTime :=
  match dt.offset with
  | none => none
  | some o =>
    let utc := dt.wall - o
    some { wall := utc + zone utc, offset := some (zone utc) }

/-- The `start_time` coercion inside `schedule_meeting` (server.py lines
152-159) applied to the datetime produced by `parser.parse(start_time)`:
if the parse is naive, attach `pytz.timezone("Asia/Karachi")` via
`replace` (which installs the zone's LMT offset), then force
`astimezone(pytz.UTC).astimezone(pytz.timezone("Asia/Karachi"))`.
(`parser.parse` itself and its exception handler are outside this
fragment; its output is the argument.) -/
def coerceStartTime (parsed : PyDateTime) : Option PyDateTime :=
  let st := if parsed.offset.isNone then replaceTzinfo parsed karachiLMT else parsed
  (astimezone st utcZone).bind (fun u => astimezone u karachiZone)

/-! ## Tool servers -/

/-- `get_coordinates(address)` (server3.py lines 19-29), with the
Nominatim geocoder as an oracle from address to optional (lat, lon).
When the geocoder finds nothing the function raises
`ValueError("Location not found. Please try a different address.")`,
modelled as `.error`. -/
def get_coordinates (geocode : String → Option (Rat × Rat)) (address : String) :
    Except String (Rat × Rat) :=
  match geocode address with
  | some loc => .ok loc
  | none => .error "Location not found. Please try a different address."

/-- The external world as `get_travel_info` observes it: the geocoder and
the OSRM routing response (HTTP status; the route's distance in metres
and duration in seconds, read from the body when the status is 200). -/
structure TravelEnv where
  geocode : String → Option (Rat × Rat)
  osrmStatus : Nat
  osrmRoute : Rat × Rat

/-- `get_travel_info(origin, destination)` (server3.py lines 63-82):
geocodes both endpoints (each one Nominatim network call, each able to
raise), then issues one OSRM request; a non-200 status raises
`Exception`.  The second component counts the network calls performed
before returning or raising. -/
def get_travel_info (env : TravelEnv) (origin destination : String) :
    Except String (Rat × Rat) × Nat :=
  match env.geocode origin with
  | none => (.error "Location not found. Please try a different address.", 1)
  | some _ =>
    match env.geocode destination with
    | none => (.error "Location not found. Please try a different address.", 2)
    | some _ =>
      if env.osrmStatus = 200 then
        ((.ok (env.osrmRoute.1 / 1000, env.osrmRoute.2 / 60)), 3)
      else
        (.error "Error from OSRM API", 3)

/-- `send_email(...)` (server.py lines 28-69): the whole SMTP interaction
sits in one `try` whose `except Exception` prints and falls through, so
the function returns `None` on every path — success or failure.  The
argument is the outcome of the SMTP interaction (connect, login, send);
the result is what the caller receives. -/
def send_email (smtp : Except String Unit) : Except String Unit :=
  match smtp with
  | .ok _ => .ok ()
  | .error _ => .ok ()

/-- A PubMed article as parsed from the efetch XML: optional
`articletitle` and `abstracttext` elements. -/
structure Article where
  title : Option String
  abstract : Option String

/-- One formatted result line of `disease_diagnoser`: produced only when
both title and abstract are present. -/
def formatArticle (a : Article) : Option String :=
  match a.title, a.abstract with
  | some t, some ab => some ("📝 " ++ t.trim ++ "\n" ++ ab.trim ++ "\n")
  | _, _ => none

/-- The PubMed service as `disease_diagnoser` observes it: the esearch
response (the id list, or a raised transport/HTTP error) and the efetch
response (the parsed articles, or a raised error). -/
structure PubMedEnv where
  searchResult : Except String (List String)
  fetchResult : Except String (List Article)

/-- `disease_diagnoser(query)` (server2.py lines 9-60): one esearch call;
if it yields ids, one efetch call; everything inside one `try` whose
handler returns `"Error fetching PubMed data: ..."`.  Returns the string
handed back to the agent and the number of network calls performed. -/
def disease_diagnoser (env : PubMedEnv) : String × Nat :=
  match env.searchResult with
  | .error e => ("Error fetching PubMed data: " ++ e, 1)
  | .ok pmids =>
    if pmids.isEmpty then
      ("No articles found for your query.", 1)
    else
      match env.fetchResult with
      | .error e => ("Error fetching PubMed data: " ++ e, 2)
      | .ok articles =>
        let results := articles.filterMap formatArticle
        (if results.isEmpty then "No abstracts found."
         else String.intercalate "\n" results, 2)

/-- A concrete react agent used to instantiate theorems on closed inputs:
echoes the history and appends one assistant message. -/
def demoAgent : ReactAgent :=
  fun ms => .ok ⟨ms ++ [Msg.ai "ok"]⟩

/-! ## Theorems -/

/-- Unfolding of `invoke` in the Ready state (`self.agent` set). -/
theorem invoke_agent_some (f : ReactAgent) (st : WrapperState) (t : String)
    (h : st.agent = some f) :
    invoke st t =
      match f (st.chat_history ++ [Msg.human t]) with
      | .error e =>
          ({ st with chat_history := st.chat_history ++ [Msg.human t] }, .error e)
      | .ok r =>
          ({ st with chat_history := (st.chat_history ++ [Msg.human t]) ++ aiTail r },
           .ok (st.chat_history ++ [Msg.human t], r)) := by
  simp only [invoke, h]

/-- C1 (amended): in the Ready state, `invoke(userText)` appends
`UserTurn(userText)` to the transcript, appends the resulting
AssistantTurn only when its text is non-empty, and returns the agent's
full response object (the complete message mapping produced by the
call), not the assistant text. -/
theorem invoke_ready_behavior (f : ReactAgent) (st : WrapperState) (t : String)
    (r : AgentResponse) (h : st.agent = some f)
    (hr : f (st.chat_history ++ [Msg.human t]) = .ok r) :
    invoke st t =
      ({ st with chat_history := (st.chat_history ++ [Msg.human t]) ++ aiTail r },
       .ok (st.chat_history ++ [Msg.human t], r)) := by
  simp only [invoke, h, hr]

/-- C1 witness: `invoke_ready_behavior` instantiated with `demoAgent`
on an empty transcript. -/
theorem invoke_ready_behavior_witness :
    invoke ⟨some demoAgent, []⟩ "hi" =
      (⟨some demoAgent, ([] ++ [Msg.human "hi"]) ++ aiTail ⟨[Msg.human "hi", Msg.ai "ok"]⟩⟩,
       .ok ([] ++ [Msg.human "hi"], ⟨[Msg.human "hi", Msg.ai "ok"]⟩)) :=
  invoke_ready_behavior demoAgent ⟨some demoAgent, []⟩ "hi"
    ⟨[Msg.human "hi", Msg.ai "ok"]⟩ rfl rfl

/-- C1 counterexample: two Ready states whose calls produce the same
final assistant text ("ok") and leave identical transcripts, yet whose
`invoke` return values differ — the second return also carries the
intermediate tool message — so `invoke` does not return the
AssistantTurn's text: it returns the full response value. -/
theorem invoke_return_not_text_counterexample :
    (invoke ⟨some demoAgent, []⟩ "hi").1.chat_history
      = (invoke ⟨some (fun ms => .ok ⟨ms ++ [Msg.tool "lookup", Msg.ai "ok"]⟩), []⟩
          "hi").1.chat_history
    ∧ (invoke ⟨some (fun ms => .ok ⟨ms ++ [Msg.tool "lookup", Msg.ai "ok"]⟩), []⟩ "hi").2
      = .ok ([Msg.human "hi"],
             ⟨[Msg.human "hi", Msg.tool "lookup", Msg.ai "ok"]⟩)
    ∧ (invoke ⟨some demoAgent, []⟩ "hi").2
      ≠ (invoke ⟨some (fun ms => .ok ⟨ms ++ [Msg.tool "lookup", Msg.ai "ok"]⟩), []⟩
          "hi").2 := by
  refine ⟨rfl, rfl, ?_⟩
  intro hcontra
  have h1 : (Except.ok ([Msg.human "hi"], AgentResponse.mk [Msg.human "hi", Msg.ai "ok"]) :
        Except String (List Msg × AgentResponse))
      = .ok ([Msg.human "hi"],
             AgentResponse.mk [Msg.human "hi", Msg.tool "lookup", Msg.ai "ok"]) := hcontra
  simp at h1

/-- C2: every successful `invoke` grows the transcript by exactly the
user turn plus, when one exists, the last assistant message of the
response with non-empty (non-whitespace) text; intermediate messages of
the response are not persisted, and the length grows by exactly 1 or 2. -/
theorem invoke_transcript_growth (f : ReactAgent) (st : WrapperState) (t : String)
    (r : AgentResponse) (h : st.agent = some f)
    (hr : f (st.chat_history ++ [Msg.human t]) = .ok r) :
    (invoke st t).1.chat_history
      = (st.chat_history ++ [Msg.human t]) ++ (lastNonBlankAI r.messages).toList
    ∧ ((invoke st t).1.chat_history.length = st.chat_history.length + 1
       ∨ (invoke st t).1.chat_history.length = st.chat_history.length + 2) := by
  rw [invoke_agent_some f st t h, hr]
  refine ⟨rfl, ?_⟩
  simp only [aiTail, List.length_append, List.length_singleton]
  cases lastNonBlankAI r.messages with
  | none => left; simp
  | some m => right; simp [Option.toList]

/-- C2 witness: `invoke_transcript_growth` on `demoAgent` with a
one-turn starting transcript; the transcript grows from 1 to 3 turns. -/
theorem invoke_transcript_growth_witness :
    (invoke ⟨some demoAgent, [Msg.human "a"]⟩ "b").1.chat_history
      = ([Msg.human "a"] ++ [Msg.human "b"])
        ++ (lastNonBlankAI [Msg.human "a", Msg.human "b", Msg.ai "ok"]).toList
    ∧ ((invoke ⟨some demoAgent, [Msg.human "a"]⟩ "b").1.chat_history.length
        = [Msg.human "a"].length + 1
       ∨ (invoke ⟨some demoAgent, [Msg.human "a"]⟩ "b").1.chat_history.length
        = [Msg.human "a"].length + 2) :=
  invoke_transcript_growth demoAgent ⟨some demoAgent, [Msg.human "a"]⟩ "b"
    ⟨[Msg.human "a", Msg.human "b", Msg.ai "ok"]⟩ rfl rfl

/-- C10: `invoke` is not atomic on error — when the agent is set and the
remote call raises, the user turn appended before the call stays in the
transcript (length grows by exactly 1, no assistant turn is added) and
the exception propagates to the caller. -/
theorem invoke_error_keeps_user_turn (f : ReactAgent) (st : WrapperState)
    (t e : String) (h : st.agent = some f)
    (hf : f (st.chat_history ++ [Msg.human t]) = .error e) :
    invoke st t = ({ st with chat_history := st.chat_history ++ [Msg.human t] }, .error e)
    ∧ (invoke st t).1.chat_history.length = st.chat_history.length + 1 := by
  rw [invoke_agent_some f st t h, hf]
  exact ⟨rfl, by simp⟩

/-- The loop accumulator of `initialize` computes the concatenation, in
provider iteration order, of each provider's contribution. -/
theorem loadAllTools_eq_flatten (servers : List ProviderEntry) :
    loadAllTools servers = (servers.map providerTools).flatten := by
  have key : ∀ (l : List ProviderEntry) (acc : List ToolDef),
      l.foldl
        (fun acc s =>
          match s.outcome with
          | .ok ts => acc ++ ts
          | .error _ => acc)
        acc
      = acc ++ (l.map providerTools).flatten := by
    intro l
    induction l with
    | nil => intro acc; simp
    | cons s rest ih =>
      intro acc
      simp only [List.foldl_cons, List.map_cons, List.flatten_cons]
      rw [ih]
      cases hs : s.outcome with
      | ok ts => simp [providerTools, hs]
      | error e => simp [providerTools, hs]
  simpa using key servers []

/-- C3: a provider whose connection attempt raises contributes zero
tools and does not abort the remaining providers, and the aggregate tool
list is the concatenation of the successfully connected providers'
declared tools, in provider iteration order then declaration order. -/
theorem loadAllTools_union_order :
    (∀ (pre post : List ProviderEntry) (nm msg : String),
        loadAllTools (pre ++ ProviderEntry.mk nm (.error msg) :: post)
          = loadAllTools pre ++ loadAllTools post)
    ∧ ∀ servers : List ProviderEntry,
        loadAllTools servers = (servers.map providerTools).flatten := by
  refine ⟨?_, loadAllTools_eq_flatten⟩
  intro pre post nm msg
  simp [loadAllTools_eq_flatten, providerTools]

/-- C4: `initialize` raises exactly when the configuration holds no
providers or the aggregate tool list is empty after attempting all
providers; otherwise it succeeds and constructs the agent over the
aggregate tool list. -/
theorem initializeAgent_fatal_iff (servers : List ProviderEntry) :
    (exceptOk (initializeAgent servers) = true
      ↔ servers ≠ [] ∧ loadAllTools servers ≠ [])
    ∧ (servers ≠ [] → loadAllTools servers ≠ []
        → initializeAgent servers = .ok (loadAllTools servers)) := by
  by_cases h1 : servers = []
  · subst h1
    exact ⟨by simp [initializeAgent, exceptOk], fun hc _ => absurd rfl hc⟩
  · have h1e : servers.isEmpty = false := by
      cases servers with
      | nil => exact absurd rfl h1
      | cons a l => rfl
    by_cases h2 : loadAllTools servers = []
    · refine ⟨?_, fun _ hc => absurd h2 hc⟩
      simp [initializeAgent, h1e, h2, exceptOk]
    · have h2e : (loadAllTools servers).isEmpty = false := by
        cases hh : loadAllTools servers with
        | nil => exact absurd hh h2
        | cons a l => rfl
      refine ⟨?_, fun _ _ => ?_⟩
      · simp [initializeAgent, h1e, h2e, exceptOk, h1, h2]
      · simp [initializeAgent, h1e, h2e]

/-- C4 witness: a configuration with one reachable provider exposing one
tool initializes successfully with that tool list; the success condition
holds. -/
theorem initializeAgent_fatal_iff_witness :
    initializeAgent [⟨"assistant", .ok [⟨"send_email", "sends emails"⟩]⟩]
      = .ok (loadAllTools [⟨"assistant", .ok [⟨"send_email", "sends emails"⟩]⟩]) :=
  (initializeAgent_fatal_iff [⟨"assistant", .ok [⟨"send_email", "sends emails"⟩]⟩]).2
    (List.cons_ne_nil _ _) (by decide)

/-- C5: a parsed `start_time` carrying no explicit zone is coerced to a
timezone-aware instant whose UTC offset is Asia/Karachi's offset (+5:00
= 300 minutes), the fixed default zone. -/
theorem schedule_meeting_default_zone (parsed : PyDateTime)
    (h : parsed.offset = none) :
    ∃ result, coerceStartTime parsed = some result
      ∧ result.offset = some (karachiZone result.wall)
      ∧ result.offset = some 300 := by
  refine ⟨⟨parsed.wall - karachiLMT + 300, some 300⟩, ?_, rfl, rfl⟩
  simp [coerceStartTime, h, replaceTzinfo, astimezone, utcZone, karachiZone, karachiLMT]

/-- C5 witness: the instant parsed as wall-clock minute 900 with no zone
comes out aware with offset +300 minutes (the wall clock shifts by the
32-minute LMT discrepancy, but the offset is the default zone's). -/
theorem schedule_meeting_default_zone_witness :
    ∃ result, coerceStartTime ⟨900, none⟩ = some result
      ∧ result.offset = some (karachiZone result.wall)
      ∧ result.offset = some 300 :=
  schedule_meeting_default_zone ⟨900, none⟩ rfl

/-- C6 counterexample: `get_coordinates` on an address the geocoder
cannot resolve raises `ValueError` out of the adapter instead of
returning an error string, so it is false that every tool wrapper never
raises. -/
theorem adapters_never_raise_counterexample :
    get_coordinates (fun _ => none) "Atlantis"
      = .error "Location not found. Please try a different address."
    ∧ ¬ ∀ (geocode : String → Option (Rat × Rat)) (address : String),
          exceptOk (get_coordinates geocode address) = true := by
  refine ⟨rfl, ?_⟩
  intro hall
  have hx := hall (fun _ => none) "Atlantis"
  simp [get_coordinates, exceptOk] at hx

/-- C6 (amended): among the cited wrappers, `send_email` never raises
(its one `try/except Exception` swallows every failure, returning None),
but `get_coordinates` raises exactly when the geocoder finds nothing,
and `get_travel_info` returns normally only when both geocoding calls
succeed and the routing response has status 200, raising otherwise. -/
theorem adapters_raise_behavior :
    (∀ (geocode : String → Option (Rat × Rat)) (address : String),
        exceptOk (get_coordinates geocode address) = (geocode address).isSome)
    ∧ (∀ smtp : Except String Unit, send_email smtp = .ok ())
    ∧ (∀ (env : TravelEnv) (o d : String),
        exceptOk (get_travel_info env o d).1
          = ((env.geocode o).isSome
              && ((env.geocode d).isSome && (env.osrmStatus == 200)))) := by
  refine ⟨?_, ?_, ?_⟩
  · intro geocode address
    cases hg : geocode address <;> simp [get_coordinates, hg, exceptOk]
  · intro smtp
    cases smtp <;> rfl
  · intro env o d
    cases go : env.geocode o with
    | none => simp [get_travel_info, go, exceptOk]
    | some p =>
      cases gd : env.geocode d with
      | none => simp [get_travel_info, go, gd, exceptOk]
      | some q =>
        by_cases h200 : env.osrmStatus = 200
        · simp [get_travel_info, go, gd, h200, exceptOk]
        · simp [get_travel_info, go, gd, h200, exceptOk, Nat.beq_eq]

/-- C7 counterexample: `disease_diagnoser` performs two network calls
(esearch, then efetch) as soon as the search yields any id, and
`get_travel_info` performs three (two geocoding calls plus the OSRM
request), so it is false that each wrapper performs exactly one network
call per invocation. -/
theorem single_network_call_counterexample :
    (disease_diagnoser ⟨.ok ["12345"], .ok []⟩).2 = 2
    ∧ (get_travel_info ⟨fun _ => some (0, 0), 200, (1000, 120)⟩ "Lahore" "Karachi").2 = 3
    ∧ ¬ ∀ env : PubMedEnv, (disease_diagnoser env).2 = 1 := by
  refine ⟨rfl, rfl, ?_⟩
  intro hall
  have hx : (2 : Nat) = 1 := hall ⟨.ok ["12345"], .ok []⟩
  exact absurd hx (by decide)

/-- C7 (amended): the network-call count of `disease_diagnoser` is 1
when the search raises or returns no ids and 2 otherwise; the count of
`get_travel_info` is 1 when the origin geocode raises, 2 when the
destination geocode raises, and 3 (two geocodes plus one routing
request) otherwise. -/
theorem network_call_counts :
    (∀ env : PubMedEnv,
        (disease_diagnoser env).2
          = match env.searchResult with
            | .error _ => 1
            | .ok pmids => if pmids.isEmpty then 1 else 2)
    ∧ (∀ (env : TravelEnv) (o d : String),
        (get_travel_info env o d).2
          = match env.geocode o with
            | none => 1
            | some _ =>
              match env.geocode d with
              | none => 2
              | some _ => 3) := by
  constructor
  · intro env
    cases hs : env.searchResult with
    | error e => simp [disease_diagnoser, hs]
    | ok pmids =>
      cases hp : pmids.isEmpty with
      | true => simp [disease_diagnoser, hs, hp]
      | false =>
        cases hf : env.fetchResult with
        | error e => simp [disease_diagnoser, hs, hp, hf]
        | ok articles => simp [disease_diagnoser, hs, hp, hf]
  · intro env o d
    cases go : env.geocode o with
    | none => simp [get_travel_info, go]
    | some p =>
      cases gd : env.geocode d with
      | none => simp [get_travel_info, go, gd]
      | some q =>
        by_cases h200 : env.osrmStatus = 200 <;>
          simp [get_travel_info, go, gd, h200]

/-- C8: across two sequential successful `invoke` calls, the first
call's state extends the starting transcript (user turn, then the
optional assistant turn), and the message list the second call sends to
the remote model is exactly that extended transcript followed by the
second user turn — every turn persisted by the first call is included,
in order, with no truncation or reordering. -/
theorem sequential_invokes_extend_transcript (f : ReactAgent)
    (st0 st1 st2 : WrapperState) (t1 t2 : String)
    (s1 s2 : List Msg) (r1 r2 : AgentResponse)
    (h : st0.agent = some f)
    (h1 : invoke st0 t1 = (st1, .ok (s1, r1)))
    (h2 : invoke st1 t2 = (st2, .ok (s2, r2))) :
    st1.chat_history = (st0.chat_history ++ [Msg.human t1]) ++ aiTail r1
    ∧ s2 = st1.chat_history ++ [Msg.human t2] := by
  rw [invoke_agent_some f st0 t1 h] at h1
  cases hf1 : f (st0.chat_history ++ [Msg.human t1]) with
  | error e => rw [hf1] at h1; simp at h1
  | ok r =>
    rw [hf1] at h1
    simp only [Prod.mk.injEq, Except.ok.injEq] at h1
    obtain ⟨hst, hs1, hr1⟩ := h1
    have hA : st1.agent = some f := by rw [← hst]; exact h
    have hHist : st1.chat_history = (st0.chat_history ++ [Msg.human t1]) ++ aiTail r1 := by
      rw [← hst, hr1]
    rw [invoke_agent_some f st1 t2 hA] at h2
    cases hf2 : f (st1.chat_history ++ [Msg.human t2]) with
    | error e => rw [hf2] at h2; simp at h2
    | ok rr =>
      rw [hf2] at h2
      simp only [Prod.mk.injEq, Except.ok.injEq] at h2
      exact ⟨hHist, h2.2.1.symm⟩

/-- C8 witness: two successful calls of `demoAgent` starting from the
empty transcript; the second request carries the first call's two
persisted turns followed by the new user turn. -/
theorem sequential_invokes_extend_transcript_witness :
    ([Msg.human "a", Msg.ai "ok"] : List Msg)
        = (([] : List Msg) ++ [Msg.human "a"]) ++ aiTail ⟨[Msg.human "a", Msg.ai "ok"]⟩
    ∧ [Msg.human "a", Msg.ai "ok", Msg.human "b"]
        = [Msg.human "a", Msg.ai "ok"] ++ [Msg.human "b"] :=
  sequential_invokes_extend_transcript demoAgent
    ⟨some demoAgent, []⟩
    ⟨some demoAgent, [Msg.human "a", Msg.ai "ok"]⟩
    ⟨some demoAgent, [Msg.human "a", Msg.ai "ok", Msg.human "b", Msg.ai "ok"]⟩
    "a" "b"
    [Msg.human "a"] [Msg.human "a", Msg.ai "ok", Msg.human "b"]
    ⟨[Msg.human "a", Msg.ai "ok"]⟩
    ⟨[Msg.human "a", Msg.ai "ok", Msg.human "b", Msg.ai "ok"]⟩
    rfl (by rfl) (by rfl)

/-- C9: the `/chat` handler passes `invoke` the submitted message with
the fixed instruction text prepended — never the message itself — so the
persisted user turn differs from the submitted message; a body missing
the `"message"` key is not rejected but treated as the empty string. -/
theorem chat_prepends_instruction :
    (∀ m : String, chatText (some m) = promptPreamble ++ m ∧ chatText (some m) ≠ m)
    ∧ chatText none = promptPreamble
    ∧ ∀ (st : WrapperState) (f : ReactAgent) (m : String), st.agent = some f →
        ∃ rest, (chatEndpoint st (some m)).1.chat_history
          = (st.chat_history ++ [Msg.human (promptPreamble ++ m)]) ++ rest := by
  refine ⟨?_, ?_, ?_⟩
  · intro m
    refine ⟨rfl, ?_⟩
    intro hEq
    have hl := congrArg String.length hEq
    rw [show chatText (some m) = promptPreamble ++ m from rfl,
        String.length_append] at hl
    have hp : 0 < promptPreamble.length := by decide
    omega
  · simp [chatText, extractMessage, promptPreamble]
  · intro st f m hA
    simp only [chatEndpoint]
    rw [invoke_agent_some f st (chatText (some m)) hA]
    cases hf : f (st.chat_history ++ [Msg.human (chatText (some m))]) with
    | error e => exact ⟨[], by simp [chatText, extractMessage]⟩
    | ok r => exact ⟨aiTail r, by simp [chatText, extractMessage]⟩

/-- C9 witness: the instantiation at message "hi" against `demoAgent` on
an empty transcript. -/
theorem chat_prepends_instruction_witness :
    (chatText (some "hi") = promptPreamble ++ "hi" ∧ chatText (some "hi") ≠ "hi")
    ∧ ∃ rest, (chatEndpoint ⟨some demoAgent, []⟩ (some "hi")).1.chat_history
        = (([] : List Msg) ++ [Msg.human (promptPreamble ++ "hi")]) ++ rest :=
  ⟨chat_prepends_instruction.1 "hi",
   chat_prepends_instruction.2.2 ⟨some demoAgent, []⟩ demoAgent "hi" rfl⟩

/-- C10 witness: an agent whose remote call always raises; the failed
`invoke` still persists the user turn. -/
theorem invoke_error_keeps_user_turn_witness :
    invoke ⟨some (fun _ => .error "boom"), []⟩ "hi"
      = (⟨some (fun _ => .error "boom"), [] ++ [Msg.human "hi"]⟩, .error "boom")
    ∧ (invoke ⟨some (fun _ => .error "boom"), []⟩ "hi").1.chat_history.length
      = ([] : List Msg).length + 1 :=
  invoke_error_keeps_user_turn (fun _ => .error "boom")
    ⟨some (fun _ => .error "boom"), []⟩ "hi" "boom" rfl rfl

end Omnibot
